import Mathlib

/-!
Verification of the Market-Intelligence core against its specification.

The Python source is embedded shallowly over `ℚ`:
* `utils/signal_generator.py`  → `analyzeForecastFactor`, `calcScores`, `calculateSignal`
* `utils/forecast_analyzer.py` → `analyzeForecastPath`
* `utils/correlation_enforcer.py` → `calcBeta`, `calcRelationships`, `enforcePredictions`
* `utils/predictor.py` → `loadModel`, `recursiveForecast`, `getMultiRangeForecast`

Floating-point arithmetic is modelled by exact rational arithmetic; numpy
reductions (`mean`, `var` with `ddof=0`, `cov` with `ddof=1`, `diff`, `clip`,
`maximum`) are transcribed with their numpy default conventions.
-/

namespace MarketIntel

/-! ## Shared numpy-style helpers -/

/-- Arithmetic mean of a list (numpy `np.mean` over a 1-d array; `0` on `[]`). -/
def listMean (xs : List ℚ) : ℚ := xs.sum / (xs.length : ℚ)

/-- Population variance, numpy `np.var` (default `ddof = 0`): mean squared
deviation from the mean. -/
def varPop (xs : List ℚ) : ℚ :=
  (xs.map (fun x => (x - listMean xs) ^ 2)).sum / (xs.length : ℚ)

/-- Sample covariance, numpy `np.cov(x, y)[0, 1]` (default `ddof = 1`):
sum of products of deviations divided by `n - 1`. -/
def covSample (xs ys : List ℚ) : ℚ :=
  ((xs.zip ys).map (fun p => (p.1 - listMean xs) * (p.2 - listMean ys))).sum
    / ((xs.length : ℚ) - 1)

/-- Per-step simple returns of a price path:
`np.diff(prices) / prices[:-1]` (equivalently pandas
`Series.pct_change().dropna()`): entry `k` is `(p(k+1) - p(k)) / p(k)`. -/
def pathReturns (prices : List ℚ) : List ℚ :=
  (prices.zip prices.tail).map (fun p => (p.2 - p.1) / p.1)

/-- numpy `np.clip(x, lo, hi)` for scalars. -/
def npClip (x lo hi : ℚ) : ℚ := max lo (min x hi)

/-! ## Signal generator (`utils/signal_generator.py`) -/

structure FactorScore where
  bullish : Bool
  bearish : Bool
  score : ℚ
  weight : ℚ
  confidence : ℚ

/-- Embedding of `SignalGenerator._analyze_forecast` (signal_generator.py lines 84-101):
bullish when the one-week percent change exceeds `2`, bearish when below
`-2`, and `score = abs(pct_change) / 10` (the source has no clamp). -/
def analyzeForecastFactor (pctChangeVal baseConfidence : ℚ) : FactorScore :=
  { bullish := decide (pctChangeVal > 2)
    bearish := decide (pctChangeVal < -2)
    score := |pctChangeVal| / 10
    weight := 4 / 10
    confidence := baseConfidence }

/-- Aggregation loop of `SignalGenerator._calculate_signal`
(signal_generator.py lines 220-231): add each factor weight to the bullish
total when its `bullish` flag is set, and to the bearish total when its
`bearish` flag is set (a factor may contribute to both). -/
def calcScores (factors : List (String × FactorScore)) : ℚ × ℚ :=
  factors.foldl
    (fun acc f =>
      (acc.1 + (if f.2.bullish then f.2.weight else 0),
       acc.2 + (if f.2.bearish then f.2.weight else 0)))
    (0, 0)

structure TradeSignal where
  signal : String
  confidence : ℚ
  entryPrice : ℚ
  targetPrice : ℚ
  stopLoss : ℚ

/-- Decision ladder of `SignalGenerator._calculate_signal`
(signal_generator.py lines 233-248): `BUY` when `bullish_score > 0.55`
(tested first), else `SELL` when `bearish_score > 0.55`, else `HOLD` with
confidence `1 - |bullish_score - bearish_score|`. -/
def calculateSignal (factors : List (String × FactorScore))
    (currentPrice forecastPredicted : ℚ) : TradeSignal :=
  let scores := calcScores factors
  let b := scores.1
  let s := scores.2
  if b > 55 / 100 then
    { signal := "BUY", confidence := min b 1, entryPrice := currentPrice
      targetPrice := forecastPredicted, stopLoss := currentPrice * (95 / 100) }
  else if s > 55 / 100 then
    { signal := "SELL", confidence := min s 1, entryPrice := currentPrice
      targetPrice := forecastPredicted, stopLoss := currentPrice * (105 / 100) }
  else
    { signal := "HOLD", confidence := 1 - |b - s|, entryPrice := currentPrice
      targetPrice := currentPrice, stopLoss := currentPrice }

/-! ## Forecast analyzer (`utils/forecast_analyzer.py`) -/

structure ForecastInsights where
  trend : String
  strength : String
  volatility : String
  riskLevel : String
  changePct : ℚ

/-- Embedding of `ForecastAnalyzer.analyze_forecast` (forecast_analyzer.py lines 40-96),
the classification part (summary/recommendation strings and key levels are
driven purely by these labels and are not modelled).

The volatility ladder compares `np.std(returns)` against `0.03` and `0.015`;
since both sides are nonnegative, `std > c ↔ var > c^2`, so the embedding
decides the ladder on the population variance against squared thresholds
(keeping everything inside `ℚ`). -/
def analyzeForecastPath (currentPrice : ℚ) (forecastPrices : List ℚ) :
    ForecastInsights :=
  let finalPrice := (forecastPrices.getLast?).getD 0
  let totalChangePct := (finalPrice - currentPrice) / currentPrice * 100
  let trend : String :=
    if totalChangePct > 2 then "bullish"
    else if totalChangePct < -2 then "bearish"
    else "neutral"
  let absChange := |totalChangePct|
  let strength : String :=
    if absChange > 15 then "strong"
    else if absChange > 5 then "moderate"
    else "weak"
  let v := varPop (pathReturns forecastPrices)
  let volatility : String :=
    if v > (3 / 100) ^ 2 then "high"
    else if v > (15 / 1000) ^ 2 then "medium"
    else "low"
  let riskLevel : String :=
    if volatility = "high" ∨ absChange > 20 then "high"
    else if volatility = "medium" ∨ absChange > 10 then "medium"
    else "low"
  { trend := trend, strength := strength, volatility := volatility
    riskLevel := riskLevel, changePct := totalChangePct }

/-- A factor configuration in which both aggregated scores exceed `0.55`
(reachable for gold: the macro and sentiment factors can set both their
`bullish` and `bearish` flags at once). -/
def bothHighFactors : List (String × FactorScore) :=
  [("forecast",  ⟨true,  false, 1/2,  4/10,   1/2⟩),
   ("macro",     ⟨true,  true,  7/10, 3/10,   3/4⟩),
   ("sentiment", ⟨true,  true,  7/10, 2/10,   3/5⟩),
   ("technical", ⟨false, true,  3/10, 15/100, 65/100⟩)]

/-! ## Correlation enforcer (`utils/correlation_enforcer.py`) -/

/-- One asset's slice of
`CorrelationEnforcer._calculate_historical_relationships`
(correlation_enforcer.py lines 60-101), starting from the date-joined frame
`merged` of (reference price, asset price) rows — the csv loading and the
pandas `merge` on `Date` are external data plumbing.  Frames with fewer than
50 rows are skipped; otherwise the last `lookback` rows are kept, simple
daily returns of both columns are taken, and
`beta = np.cov(asset_ret, ref_ret)[0, 1] / np.var(ref_ret)` when the
reference variance is positive, else `1.0`.  (A Pearson correlation is also
stored but never read by the enforcement formula, so it is not modelled.) -/
def calcBeta (lookback : ℕ) (merged : List (ℚ × ℚ)) : Option ℚ :=
  if merged.length < 50 then none
  else
    let m := merged.drop (merged.length - lookback)
    let refRet := pathReturns (m.map Prod.fst)
    let assetRet := pathReturns (m.map Prod.snd)
    some (if varPop refRet > 0 then covSample assetRet refRet / varPop refRet
          else 1)

/-- The betas table built at construction: one entry per ticker whose joined
history passes the length gate (tickers with no data file never reach the
computation, and the `try/except: continue` keeps only successes). -/
def calcRelationships (lookback : ℕ)
    (dataOf : List (String × List (ℚ × ℚ))) : List (String × ℚ) :=
  dataOf.filterMap
    (fun td => (calcBeta lookback td.2).map (fun b => (td.1, b)))

structure Enforcer where
  referenceTicker : String
  betas : List (String × ℚ)

/-- Price-path reconstruction loop of
`CorrelationEnforcer.enforce_predictions` (lines 166-171): start from the
asset's first raw forecast price and repeatedly append
`adjusted_prices[-1] * (1 + ret)` through the blended returns. -/
def compound (startPrice : ℚ) : List ℚ → List ℚ
  | [] => [startPrice]
  | r :: rs => startPrice :: compound (startPrice * (1 + r)) rs

/-- Per-asset adjustment of `enforce_predictions` (lines 148-173): blend the
asset's own returns with `beta`-scaled reference returns and recompound. -/
def adjustPath (strength beta : ℚ) (refReturns raw : List ℚ) : List ℚ :=
  let rawReturns := pathReturns raw
  let expectedReturns := refReturns.map (fun r => beta * r)
  let blendedReturns := (rawReturns.zip expectedReturns).map
    (fun p => (1 - strength) * p.1 + strength * p.2)
  compound (raw.getD 0 0) blendedReturns

/-- Embedding of `CorrelationEnforcer.enforce_predictions` (lines 105-181) over an
association list standing for the Python dict (insertion order preserved:
the adjusted dict starts with the reference entry, then the remaining tickers
in input order).  All paths of one batch share a length; numpy rejects
mismatched lengths in the blend, and the `zip` truncation here is only
exercised in the equal-length regime. -/
def enforcePredictions (enf : Enforcer) (preds : List (String × List ℚ))
    (strength : ℚ) : List (String × List ℚ) :=
  if (preds.lookup enf.referenceTicker).isNone then preds
  else if enf.betas.isEmpty then preds
  else
    let refPred := (preds.lookup enf.referenceTicker).getD []
    let refReturns := pathReturns refPred
    (enf.referenceTicker, refPred) ::
      preds.filterMap (fun tp =>
        if tp.1 = enf.referenceTicker then none
        else
          match enf.betas.lookup tp.1 with
          | none => some tp
          | some beta => some (tp.1, adjustPath strength beta refReturns tp.2))

/-! ## Recursive forecast engine (`utils/predictor.py`) -/

/-- Errors the predictor code paths can raise.  `insufficientHistory` is the
error class named by the specification; it is declared here so claims about
it can be stated — no code path constructs it. -/
inductive PredictorError where
  | fileNotFound : String → PredictorError
  | valueError : String → PredictorError
  | insufficientHistory : PredictorError
deriving DecidableEq

/-- The environment `AssetPredictor.recursive_forecast` runs in: availability
flags for the external artifacts, the asset profile, and the normalized
series.  The fitted normalizer is an opaque per-column external artifact
(spec §6), so the forward transform of the loaded data and of the feature
means enter as `scaledData`/`scaledMeans`, its price-column inverse as
`invPrice`, and `scaler.scale_` as `scale`; the trained regressor is the
opaque `predict`. -/
structure ForecastEnv where
  tfAvailable : Bool
  isLoaded : Bool
  modelFileExists : Bool
  scalerFileExists : Bool
  loadRaises : Bool
  assetKey : String
  features : List String
  sequenceLength : ℕ
  scaledData : List (List ℚ)
  scaledMeans : List ℚ
  scale : List ℚ
  invPrice : ℚ → ℚ
  predict : List (List ℚ) → ℚ

/-- Embedding of `AssetPredictor.load_model` (predictor.py lines 68-92): `False` without
TensorFlow; `FileNotFoundError` when either artifact file is missing
(raised before the `try` block); an exception inside the `try` block is
caught and becomes `False`; otherwise `True`. -/
def loadModel (env : ForecastEnv) : Except PredictorError Bool :=
  if env.tfAvailable = false then .ok false
  else if env.modelFileExists = false then
    .error (.fileNotFound "Model not found")
  else if env.scalerFileExists = false then
    .error (.fileNotFound "Scaler not found")
  else if env.loadRaises then .ok false
  else .ok true

/-- The source's `trust_factor = max(0.05, 1.0 - (i / 365.0))` (predictor.py line 201). -/
def trustFactor (i : ℕ) : ℚ := max (5 / 100) (1 - (i : ℚ) / 365)

/-- The source's `decay = 0.99 if self.asset_key != 'btc' else 0.97` (line 206). -/
def decayFor (assetKey : String) : ℚ :=
  if assetKey ≠ "btc" then 99 / 100 else 97 / 100

/-- One price update of the loop (predictor.py lines 192-215): clip the
model's delta to `±0.008`, damp it by `decay * trust`, and add the anchor
pull toward the start price. -/
def stepPrice (assetKey : String) (startPrice prevPrice predScaled : ℚ)
    (i : ℕ) : ℚ :=
  let aiDelta := npClip (predScaled - prevPrice) (-(8 / 1000)) (8 / 1000)
  let aiMovement := aiDelta * decayFor assetKey * trustFactor i
  let anchorPull := (startPrice - prevPrice) * (1 - trustFactor i) * (1 / 100)
  prevPrice + aiMovement + anchorPull

/-- The next frame of the window (predictor.py lines 217-240): index 0 is
the new price; `EMA_90` is exponentially smoothed with `alpha = 2/(90+1)`;
`Halving_Cycle` loses one scaled day, floored at 0; the four macro columns
drift toward their scaled means at rate `0.002`; other columns carry over. -/
def nextFrame (features : List String) (scaledMeans scale prevFrame : List ℚ)
    (newPrice : ℚ) : List ℚ :=
  (List.range prevFrame.length).map (fun fIdx =>
    if fIdx = 0 then newPrice
    else
      let old := prevFrame.getD fIdx 0
      let fName := features.getD fIdx ""
      if fName = "EMA_90" then
        newPrice * (2 / (90 + 1)) + old * (1 - 2 / (90 + 1))
      else if fName = "Halving_Cycle" then
        max 0 (old - scale.getD fIdx 0)
      else if fName = "Sentiment" ∨ fName = "DXY" ∨ fName = "VIX" ∨
          fName = "Yield_10Y" then
        old + (scaledMeans.getD fIdx 0 - old) * (2 / 1000)
      else old)

structure LoopState where
  window : List (List ℚ)
  preds : List ℚ

/-- The last frame of a window (`temp_data[0, -1, :]`). -/
def lastWinFrame (w : List (List ℚ)) : List ℚ := (w.getLast?).getD []

/-- One iteration of the `for i in range(steps)` body of
`recursive_forecast` (predictor.py lines 179-246): predict from the current
window, damp and anchor the price, rebuild the frame, slide the window, and
record the new normalized price. -/
def forecastStep (env : ForecastEnv) (startPrice : ℚ) (i : ℕ)
    (st : LoopState) : LoopState :=
  let predScaled := env.predict st.window
  let prevFrame := lastWinFrame st.window
  let prevPrice := prevFrame.getD 0 0
  let newPrice := stepPrice env.assetKey startPrice prevPrice predScaled i
  let newFrame := nextFrame env.features env.scaledMeans env.scale prevFrame
    newPrice
  { window := st.window.tail ++ [newFrame], preds := st.preds ++ [newPrice] }

/-- The loop state after `n` iterations (iterations run `i = 0, 1, …`). -/
def runLoop (env : ForecastEnv) (startPrice : ℚ) (init : LoopState) :
    ℕ → LoopState
  | 0 => init
  | n + 1 => forecastStep env startPrice n (runLoop env startPrice init n)

/-- The initial sliding window: the last `sequence_length` normalized rows
(`scaled_data[-seq_len:]`, predictor.py line 174). -/
def initWindow (env : ForecastEnv) : List (List ℚ) :=
  env.scaledData.drop (env.scaledData.length - env.sequenceLength)

/-- The normalized price at the initial window's last position
(`current_batch[0, -1, 0]`, fixed for the whole run). -/
def startScaled (env : ForecastEnv) : ℚ :=
  (lastWinFrame (initWindow env)).getD 0 0

/-- Embedding of `AssetPredictor.recursive_forecast` (predictor.py lines 142-259).
Without TensorFlow the result is `[]`; when not yet loaded, `load_model`
runs — a missing artifact file propagates its `FileNotFoundError`, a caught
load failure yields `[]`.  Otherwise the window is built from the last
`sequence_length` rows — numpy's `reshape(1, seq_len, n_features)` raises
`ValueError` when fewer rows exist — the loop records `steps` normalized
prices, which are inverse-transformed (per-column scaler, so the
dummy-matrix round trip is `invPrice` on the price column) and floored
elementwise at 20% of the real-valued start price (`np.maximum`). -/
def recursiveForecast (env : ForecastEnv) (steps : ℕ) :
    Except PredictorError (List ℚ) :=
  if env.tfAvailable = false then .ok []
  else
    match (if env.isLoaded then Except.ok true else loadModel env) with
    | .error e => .error e
    | .ok false => .ok []
    | .ok true =>
      if env.scaledData.length < env.sequenceLength then
        .error (.valueError "cannot reshape array")
      else
        let st := runLoop env (startScaled env) ⟨initWindow env, []⟩ steps
        let predsOriginal := st.preds.map env.invPrice
        let startPrice := env.invPrice (startScaled env)
        .ok (predsOriginal.map (fun p => max p (startPrice * (2 / 10))))

/-- The configured `FORECAST_RANGES` (utils/config.py lines 93-101). -/
def forecastRanges : List (String × ℕ) :=
  [("1 Day", 1), ("1 Week", 5), ("2 Weeks", 10), ("1 Month", 21),
   ("3 Months", 63), ("6 Months", 126), ("1 Year", 252)]

/-- The `for label, steps in FORECAST_RANGES.items()` loop of
`get_multi_range_forecast` (predictor.py lines 271-283): each range maps to
the forecast's last price, or to the current price when the forecast came
back empty; an exception from `recursive_forecast` propagates.  (The
confidence metadata attached alongside each price never affects the price
and is not modelled.) -/
def rangeEntries (env : ForecastEnv) (currentPrice : ℚ) :
    List (String × ℕ) → Except PredictorError (List (String × ℚ))
  | [] => .ok []
  | ls :: rest =>
    match recursiveForecast env ls.2 with
    | .error e => .error e
    | .ok forecast =>
      match rangeEntries env currentPrice rest with
      | .error e => .error e
      | .ok entries =>
        .ok ((ls.1,
          match forecast.getLast? with
          | some p => p
          | none => currentPrice) :: entries)

/-- Embedding of `AssetPredictor.get_multi_range_forecast` (predictor.py lines 261-285):
the `Current` entry first (`results = {'Current': current_price}`), then one
entry per configured range.  The current price comes from the data file
(`get_latest_price`) and is taken here as an input. -/
def getMultiRangeForecast (env : ForecastEnv) (currentPrice : ℚ) :
    Except PredictorError (List (String × ℚ)) :=
  match rangeEntries env currentPrice forecastRanges with
  | .error e => .error e
  | .ok entries => .ok (("Current", currentPrice) :: entries)

/-- The per-step price recurrence exactly as claim C1 words it, kept as a
separate definition so the loop can be checked against it. -/
def claimStepPrice (prevPrice rawPred startPrice : ℚ) (i : ℕ)
    (isBtc : Bool) : ℚ :=
  let trust := max (5 / 100) (1 - (i : ℚ) / 365)
  let decay : ℚ := if isBtc then 97 / 100 else 99 / 100
  prevPrice + npClip (rawPred - prevPrice) (-(8 / 1000)) (8 / 1000) * decay * trust
    + (startPrice - prevPrice) * (1 - trust) * (1 / 100)

/-- A concrete environment: a loadable single-feature asset with exactly
`sequence_length` rows of history and a model that always answers `1`. -/
def baseEnv : ForecastEnv where
  tfAvailable := true
  isLoaded := true
  modelFileExists := true
  scalerFileExists := true
  loadRaises := false
  assetKey := "aapl"
  features := ["AAPL"]
  sequenceLength := 2
  scaledData := [[1], [1]]
  scaledMeans := [1]
  scale := [1]
  invPrice := fun q => q
  predict := fun _ => 1

/-- Like `baseEnv`, but the model artifact file is missing and not yet loaded. -/
def noModelEnv : ForecastEnv :=
  { baseEnv with isLoaded := false, modelFileExists := false }

/-- Like `baseEnv`, but the load of the existing artifacts raises (caught). -/
def loadFailEnv : ForecastEnv :=
  { baseEnv with isLoaded := false, loadRaises := true }

/-- Like `baseEnv`, but with only one history row against a window of two. -/
def shortEnv : ForecastEnv :=
  { baseEnv with scaledData := [[1]] }

/-! ## Claims about the signal generator -/

/-- Claim C7, counterexample: with `bullish_score = 0.9 > 0.55` and
`bearish_score = 0.65 > 0.55` the ladder answers `BUY`, not the `HOLD` the
claim asserts for the both-exceed case. -/
theorem c7_counterexample :
    (calcScores bothHighFactors).1 > 55 / 100 ∧
    (calcScores bothHighFactors).2 > 55 / 100 ∧
    (calculateSignal bothHighFactors 100 110).signal = "BUY" ∧
    (calculateSignal bothHighFactors 100 110).signal ≠ "HOLD" := by
  norm_num [bothHighFactors, calcScores, calculateSignal]
  decide

/-- Claim C7 (amended): `BUY` whenever `bullish_score > 0.55` (this branch is
tested first, so it wins even when `bearish_score > 0.55` too); `SELL` when
`bullish_score ≤ 0.55` and `bearish_score > 0.55`; otherwise `HOLD` with
confidence `1 - |bullish_score - bearish_score|`. -/
theorem c7_signal_decision_ladder (factors : List (String × FactorScore))
    (currentPrice forecastPredicted : ℚ) :
    ((calcScores factors).1 > 55 / 100 →
      (calculateSignal factors currentPrice forecastPredicted).signal = "BUY") ∧
    (¬ (calcScores factors).1 > 55 / 100 → (calcScores factors).2 > 55 / 100 →
      (calculateSignal factors currentPrice forecastPredicted).signal = "SELL") ∧
    (¬ (calcScores factors).1 > 55 / 100 → ¬ (calcScores factors).2 > 55 / 100 →
      (calculateSignal factors currentPrice forecastPredicted).signal = "HOLD" ∧
      (calculateSignal factors currentPrice forecastPredicted).confidence =
        1 - |(calcScores factors).1 - (calcScores factors).2|) := by
  simp only [calculateSignal]
  split_ifs with h1 h2 <;> simp_all

/-- Claim C7 witness: the amended ladder applied to a concrete configuration. -/
theorem c7_witness :
    (calculateSignal bothHighFactors 100 110).signal = "BUY" :=
  (c7_signal_decision_ladder bothHighFactors 100 110).1
    (by norm_num [bothHighFactors, calcScores])

/-- Claim C8, counterexample: at a one-week change of `+20%` the source
computes `score = 2`, while the claim's formula `min(|%change|/10, 1)` gives
`1`; the score is not in `[0, 1]`. -/
theorem c8_counterexample :
    (analyzeForecastFactor 20 (1/2)).score = 2 ∧
    min (|(20 : ℚ)| / 10) 1 = 1 ∧
    ¬ (analyzeForecastFactor 20 (1/2)).score ≤ 1 := by
  norm_num [analyzeForecastFactor]

/-- Claim C8 (amended): the forecast factor's score equals `|%change| / 10`
with no clamp; it is always nonnegative and lies in `[0, 1]` exactly when
`|%change| ≤ 10`. -/
theorem c8_forecast_factor_score (pct bc : ℚ) :
    (analyzeForecastFactor pct bc).score = |pct| / 10 ∧
    0 ≤ (analyzeForecastFactor pct bc).score ∧
    (|pct| ≤ 10 → (analyzeForecastFactor pct bc).score ≤ 1) := by
  refine ⟨rfl, ?_, fun h => ?_⟩
  · simp only [analyzeForecastFactor]
    positivity
  · simp only [analyzeForecastFactor]
    linarith

/-- Claim C8 witness: the amended statement at `%change = 5`. -/
theorem c8_witness :
    (analyzeForecastFactor 5 (1/2)).score = |(5 : ℚ)| / 10 ∧
    (analyzeForecastFactor 5 (1/2)).score ≤ 1 :=
  ⟨(c8_forecast_factor_score 5 (1/2)).1,
   (c8_forecast_factor_score 5 (1/2)).2.2 (by norm_num)⟩

/-! ## Claim about the forecast analyzer -/

/-- Claim C9: the analyzer classifies trend as bullish iff the total change
percentage exceeds `2`, bearish iff it is below `-2`, else neutral; and risk
as high iff volatility is high or `|change| > 20`, else medium iff volatility
is at least medium or `|change| > 10`, else low.  Volatility-high means
`std(returns) > 0.03`, stated equivalently as `var(returns) > 0.03^2`
(both sides of the comparison are nonnegative). -/
theorem c9_analyzer_classification (currentPrice : ℚ) (path : List ℚ)
    (_hlen : 2 ≤ path.length) :
    ((analyzeForecastPath currentPrice path).trend = "bullish" ↔
      ((path.getLast?).getD 0 - currentPrice) / currentPrice * 100 > 2) ∧
    ((analyzeForecastPath currentPrice path).trend = "bearish" ↔
      ((path.getLast?).getD 0 - currentPrice) / currentPrice * 100 < -2) ∧
    ((analyzeForecastPath currentPrice path).trend = "neutral" ↔
      (¬ ((path.getLast?).getD 0 - currentPrice) / currentPrice * 100 > 2 ∧
       ¬ ((path.getLast?).getD 0 - currentPrice) / currentPrice * 100 < -2)) ∧
    ((analyzeForecastPath currentPrice path).riskLevel = "high" ↔
      (varPop (pathReturns path) > (3/100) ^ 2 ∨
       |((path.getLast?).getD 0 - currentPrice) / currentPrice * 100| > 20)) ∧
    ((analyzeForecastPath currentPrice path).riskLevel = "medium" ↔
      (¬ (varPop (pathReturns path) > (3/100) ^ 2 ∨
          |((path.getLast?).getD 0 - currentPrice) / currentPrice * 100| > 20) ∧
       (varPop (pathReturns path) > (15/1000) ^ 2 ∨
        |((path.getLast?).getD 0 - currentPrice) / currentPrice * 100| > 10))) ∧
    ((analyzeForecastPath currentPrice path).riskLevel = "low" ↔
      (¬ (varPop (pathReturns path) > (3/100) ^ 2 ∨
          |((path.getLast?).getD 0 - currentPrice) / currentPrice * 100| > 20) ∧
       ¬ (varPop (pathReturns path) > (15/1000) ^ 2 ∨
          |((path.getLast?).getD 0 - currentPrice) / currentPrice * 100| > 10))) := by
  simp only [analyzeForecastPath]
  split_ifs <;> simp_all <;> linarith

/-! ## Path-algebra lemmas and claims for the correlation enforcer -/

theorem pathReturns_length (l : List ℚ) :
    (pathReturns l).length = l.length - 1 := by
  simp [pathReturns]

theorem pathReturns_cons_cons (a b : ℚ) (l : List ℚ) :
    pathReturns (a :: b :: l) = (b - a) / a :: pathReturns (b :: l) := by
  simp [pathReturns]

theorem compound_eq_cons (s : ℚ) (rets : List ℚ) :
    compound s rets = s :: (compound s rets).tail := by
  cases rets <;> rfl

theorem compound_getD_zero (s : ℚ) (rets : List ℚ) :
    (compound s rets).getD 0 0 = s := by
  cases rets <;> rfl

theorem pathReturns_compound (s : ℚ) (rets : List ℚ) (h0 : s ≠ 0)
    (h : ∀ r ∈ rets, 1 + r ≠ 0) :
    pathReturns (compound s rets) = rets := by
  induction rets generalizing s with
  | nil => simp [compound, pathReturns]
  | cons r rs ih =>
    have hr : 1 + r ≠ 0 := h r (List.mem_cons_self r rs)
    have hs' : s * (1 + r) ≠ 0 := mul_ne_zero h0 hr
    have hstep : compound s (r :: rs) = s :: compound (s * (1 + r)) rs := rfl
    rw [hstep, compound_eq_cons (s * (1 + r)) rs, pathReturns_cons_cons,
      ← compound_eq_cons]
    have hhead : (s * (1 + r) - s) / s = r := by
      field_simp
      ring
    rw [hhead, ih (s * (1 + r)) hs' (fun x hx => h x (List.mem_cons_of_mem _ hx))]

theorem compound_pathReturns (raw : List ℚ) :
    raw ≠ [] → (∀ p ∈ raw, p ≠ 0) →
    compound (raw.getD 0 0) (pathReturns raw) = raw := by
  induction raw with
  | nil => intro h _; exact absurd rfl h
  | cons a l ih =>
    intro _ h0
    cases l with
    | nil => rfl
    | cons b t =>
      have ha : a ≠ 0 := h0 a (List.mem_cons_self _ _)
      rw [pathReturns_cons_cons]
      have hstep : compound ((a :: b :: t).getD 0 0)
          ((b - a) / a :: pathReturns (b :: t)) =
          a :: compound (a * (1 + (b - a) / a)) (pathReturns (b :: t)) := rfl
      rw [hstep]
      have hb : a * (1 + (b - a) / a) = b := by
        field_simp
      rw [hb]
      have htail := ih (by simp) (fun p hp => h0 p (List.mem_cons_of_mem _ hp))
      simpa using htail

theorem blend_strength_zero (xs ys : List ℚ) (h : xs.length = ys.length) :
    (xs.zip ys).map (fun p => (1 - (0:ℚ)) * p.1 + 0 * p.2) = xs := by
  induction xs generalizing ys with
  | nil => simp
  | cons x xt ih =>
    cases ys with
    | nil => simp at h
    | cons y yt =>
      simp only [List.zip_cons_cons, List.map_cons]
      rw [ih yt (by simpa using h)]
      norm_num

theorem blend_strength_one (xs ys : List ℚ) (h : xs.length = ys.length) :
    (xs.zip ys).map (fun p => (1 - (1:ℚ)) * p.1 + 1 * p.2) = ys := by
  induction xs generalizing ys with
  | nil =>
    cases ys with
    | nil => simp
    | cons y yt => simp at h
  | cons x xt ih =>
    cases ys with
    | nil => simp at h
    | cons y yt =>
      simp only [List.zip_cons_cons, List.map_cons]
      rw [ih yt (by simpa using h)]
      norm_num

/-- Lookup through a key-preserving `filterMap` that drops exactly the
entries keyed by `ref` and rewrites every other value by `g`. -/
theorem lookup_filterMap_keyed (ref : String) (g : String → List ℚ → List ℚ)
    (preds : List (String × List ℚ)) (t : String) (ht : t ≠ ref) :
    (preds.filterMap (fun tp =>
        if tp.1 = ref then none else some (tp.1, g tp.1 tp.2))).lookup t =
      (preds.lookup t).map (g t) := by
  induction preds with
  | nil => rfl
  | cons kv rest ih =>
    by_cases hk : kv.1 = ref
    · have hkt : (t == kv.1) = false := by
        rw [beq_eq_false_iff_ne, hk]
        exact ht
      simp only [List.filterMap_cons, if_pos hk, List.lookup, hkt]
      exact ih
    · by_cases hkt : t = kv.1
      · have hb : (t == kv.1) = true := beq_iff_eq.mpr hkt
        simp only [List.filterMap_cons, if_neg hk, List.lookup, hb]
        rw [hkt]
        rfl
      · have hb : (t == kv.1) = false := beq_eq_false_iff_ne.mpr hkt
        simp only [List.filterMap_cons, if_neg hk, List.lookup, hb]
        exact ih

/-- Lookup of a non-reference ticker after enforcement: the first matching
entry of the input survives `filterMap` (reference-keyed entries never match
a non-reference key) and carries the per-asset transformation. -/
theorem lookup_enforce (enf : Enforcer) (preds : List (String × List ℚ))
    (strength : ℚ) (t : String) (ht : t ≠ enf.referenceTicker)
    (href : (preds.lookup enf.referenceTicker).isSome)
    (hβ : enf.betas.isEmpty = false) :
    (enforcePredictions enf preds strength).lookup t =
      (preds.lookup t).map (fun raw =>
        match enf.betas.lookup t with
        | none => raw
        | some beta =>
            adjustPath strength beta
              (pathReturns ((preds.lookup enf.referenceTicker).getD [])) raw) := by
  have hrefB : ((preds.lookup enf.referenceTicker).isNone) = false := by
    simp only [Option.isNone_eq_false_iff]
    exact href
  have htB : (t == enf.referenceTicker) = false :=
    beq_eq_false_iff_ne.mpr ht
  have hfun : (fun tp : String × List ℚ =>
      if tp.1 = enf.referenceTicker then none
      else
        match enf.betas.lookup tp.1 with
        | none => some tp
        | some beta =>
            some (tp.1, adjustPath strength beta
              (pathReturns ((preds.lookup enf.referenceTicker).getD [])) tp.2)) =
      (fun tp : String × List ℚ =>
        if tp.1 = enf.referenceTicker then none
        else some (tp.1,
          (fun k v =>
            match enf.betas.lookup k with
            | none => v
            | some beta =>
                adjustPath strength beta
                  (pathReturns ((preds.lookup enf.referenceTicker).getD [])) v)
            tp.1 tp.2)) := by
    funext tp
    cases hb : enf.betas.lookup tp.1 <;> simp [hb]
  simp only [enforcePredictions, hrefB, Bool.false_eq_true, if_false, hβ,
    List.lookup, htB]
  rw [hfun]
  exact lookup_filterMap_keyed enf.referenceTicker
    (fun k v =>
      match enf.betas.lookup k with
      | none => v
      | some beta =>
          adjustPath strength beta
            (pathReturns ((preds.lookup enf.referenceTicker).getD [])) v)
    preds t ht

/-- Lookup of the reference ticker after enforcement: it heads the result. -/
theorem lookup_enforce_ref (enf : Enforcer) (preds : List (String × List ℚ))
    (strength : ℚ) (refPath : List ℚ)
    (href : preds.lookup enf.referenceTicker = some refPath)
    (hβ : enf.betas.isEmpty = false) :
    (enforcePredictions enf preds strength).lookup enf.referenceTicker =
      some refPath := by
  simp [enforcePredictions, href, hβ, List.lookup]

/-- Claim C2: with the anchor present and a known beta, enforcement at
strength `0` returns the asset's path exactly (rational arithmetic is exact,
so "up to floating-point tolerance" becomes equality); at strength `1` the
adjusted per-step simple returns equal `beta` times the anchor's per-step
returns; the asset's first forecasted price is untouched at both strengths,
and the anchor's own path passes through unchanged.  The nonzero-price and
nondegenerate-return hypotheses are the data-model invariant that forecast
paths consist of nonzero prices (divisions by previous prices must be
defined). -/
theorem c2_enforce_strength_boundary (enf : Enforcer)
    (preds : List (String × List ℚ)) (t : String)
    (refPath rawPath : List ℚ) (β : ℚ)
    (href : preds.lookup enf.referenceTicker = some refPath)
    (hbne : enf.betas ≠ [])
    (ht : t ≠ enf.referenceTicker)
    (hraw : preds.lookup t = some rawPath)
    (hβ : enf.betas.lookup t = some β)
    (hlen : rawPath.length = refPath.length)
    (hrawne : rawPath ≠ [])
    (hraw0 : ∀ p ∈ rawPath, p ≠ 0)
    (hnz : ∀ r ∈ pathReturns refPath, 1 + β * r ≠ 0) :
    ((enforcePredictions enf preds 0).lookup t = some rawPath) ∧
    (pathReturns (((enforcePredictions enf preds 1).lookup t).getD []) =
      (pathReturns refPath).map (fun r => β * r)) ∧
    ((((enforcePredictions enf preds 1).lookup t).getD []).getD 0 0 =
      rawPath.getD 0 0) ∧
    ((enforcePredictions enf preds 0).lookup enf.referenceTicker =
      some refPath) ∧
    ((enforcePredictions enf preds 1).lookup enf.referenceTicker =
      some refPath) := by
  have hβe : enf.betas.isEmpty = false := by
    cases hbetas : enf.betas with
    | nil => exact absurd hbetas hbne
    | cons a l => rfl
  have hsome : (preds.lookup enf.referenceTicker).isSome := by
    rw [href]; rfl
  have hgetref : (preds.lookup enf.referenceTicker).getD [] = refPath := by
    rw [href]; rfl
  have hlens : (pathReturns rawPath).length =
      ((pathReturns refPath).map (fun r => β * r)).length := by
    rw [List.length_map, pathReturns_length, pathReturns_length, hlen]
  have hstart : rawPath.getD 0 0 ≠ 0 := by
    cases rawPath with
    | nil => exact absurd rfl hrawne
    | cons a l => exact hraw0 a (List.mem_cons_self _ _)
  have h0 := lookup_enforce enf preds 0 t ht hsome hβe
  have h1 := lookup_enforce enf preds 1 t ht hsome hβe
  rw [hraw, hβ, hgetref] at h0 h1
  simp only [Option.map_some'] at h0 h1
  have hadj0 : adjustPath 0 β (pathReturns refPath) rawPath = rawPath := by
    simp only [adjustPath]
    rw [blend_strength_zero _ _ hlens]
    exact compound_pathReturns rawPath hrawne hraw0
  have hadj1 : adjustPath 1 β (pathReturns refPath) rawPath =
      compound (rawPath.getD 0 0) ((pathReturns refPath).map (fun r => β * r)) := by
    simp only [adjustPath]
    rw [blend_strength_one _ _ hlens]
  refine ⟨?_, ?_, ?_, ?_, ?_⟩
  · rw [h0, hadj0]
  · rw [h1]
    simp only [Option.getD_some]
    rw [hadj1]
    refine pathReturns_compound _ _ hstart ?_
    intro x hx
    rcases List.mem_map.mp hx with ⟨r, hr, hrx⟩
    rw [← hrx]
    exact hnz r hr
  · rw [h1]
    simp only [Option.getD_some]
    rw [hadj1]
    exact compound_getD_zero _ _
  · exact lookup_enforce_ref enf preds 0 refPath href hβe
  · exact lookup_enforce_ref enf preds 1 refPath href hβe

/-- Claim C2 witness: a two-asset batch with anchor `SPY`, asset `QQQ`,
`beta = 2`; strength `0` leaves `QQQ` untouched and strength `1` doubles the
anchor's `+10%` step. -/
theorem c2_witness :
    ((enforcePredictions ⟨"SPY", [("QQQ", 2)]⟩
        [("SPY", [100, 110]), ("QQQ", [50, 60])] 0).lookup "QQQ" =
      some [50, 60]) ∧
    (pathReturns (((enforcePredictions ⟨"SPY", [("QQQ", 2)]⟩
        [("SPY", [100, 110]), ("QQQ", [50, 60])] 1).lookup "QQQ").getD []) =
      (pathReturns [100, 110]).map (fun r => 2 * r)) ∧
    ((enforcePredictions ⟨"SPY", [("QQQ", 2)]⟩
        [("SPY", [100, 110]), ("QQQ", [50, 60])] 1).lookup "SPY" =
      some [100, 110]) := by
  have h := c2_enforce_strength_boundary ⟨"SPY", [("QQQ", 2)]⟩
    [("SPY", [100, 110]), ("QQQ", [50, 60])] "QQQ" [100, 110] [50, 60] 2
    (by rfl) (by simp) (by decide) (by rfl) (by rfl) (by rfl) (by decide)
    (by norm_num) (by norm_num [pathReturns])
  exact ⟨h.1, h.2.1, h.2.2.2.2⟩

/-- Claim C6, counterexample: with 50 joined rows of constant prices the
anchor's return variance is `0`, and the stored beta is `1.0`, not the `0`
the claim asserts. -/
theorem c6_counterexample :
    varPop (pathReturns
      (((List.replicate 50 ((1:ℚ), (1:ℚ))).drop
        ((List.replicate 50 ((1:ℚ), (1:ℚ))).length - 252)).map Prod.fst)) = 0 ∧
    calcBeta 252 (List.replicate 50 ((1:ℚ), (1:ℚ))) = some 1 ∧
    calcBeta 252 (List.replicate 50 ((1:ℚ), (1:ℚ))) ≠ some 0 := by
  have hdrop : ((List.replicate 50 ((1:ℚ), (1:ℚ))).drop
      ((List.replicate 50 ((1:ℚ), (1:ℚ))).length - 252)) =
      List.replicate 50 ((1:ℚ), (1:ℚ)) := by
    simp
  have hret : pathReturns (List.replicate 50 (1:ℚ)) = List.replicate 49 0 := by
    simp [pathReturns, List.zip_replicate]
  have hvar : varPop (List.replicate 49 (0:ℚ)) = 0 := by
    simp [varPop, listMean]
  have hfst : (List.replicate 50 ((1:ℚ), (1:ℚ))).map Prod.fst =
      List.replicate 50 (1:ℚ) := by
    simp
  refine ⟨?_, ?_, ?_⟩
  · rw [hdrop, hfst, hret, hvar]
  · simp only [calcBeta, List.length_replicate]
    rw [if_neg (by norm_num)]
    rw [show (50 - 252 : ℕ) = 0 from rfl, List.drop_zero, hfst, hret, hvar]
    rw [if_neg (by norm_num)]
  · simp only [calcBeta, List.length_replicate]
    rw [if_neg (by norm_num)]
    rw [show (50 - 252 : ℕ) = 0 from rfl, List.drop_zero, hfst, hret, hvar]
    rw [if_neg (by norm_num)]
    simp

/-- Claim C6 (amended): for every joined history passing the 50-row gate, a
beta is stored, and it satisfies `beta * var(anchor_returns) =
cov(asset_returns, anchor_returns)` when the anchor's return variance is
positive, and equals `1.0` (not `0`) when that variance is zero. -/
theorem c6_beta_formula (lookback : ℕ) (merged : List (ℚ × ℚ))
    (h : 50 ≤ merged.length) :
    ∃ β, calcBeta lookback merged = some β ∧
      (0 < varPop (pathReturns
          ((merged.drop (merged.length - lookback)).map Prod.fst)) →
        β * varPop (pathReturns
          ((merged.drop (merged.length - lookback)).map Prod.fst)) =
        covSample
          (pathReturns ((merged.drop (merged.length - lookback)).map Prod.snd))
          (pathReturns ((merged.drop (merged.length - lookback)).map Prod.fst))) ∧
      (varPop (pathReturns
          ((merged.drop (merged.length - lookback)).map Prod.fst)) = 0 →
        β = 1) := by
  have hlt : ¬ merged.length < 50 := by omega
  simp only [calcBeta, if_neg hlt]
  by_cases hv : varPop (pathReturns
      ((merged.drop (merged.length - lookback)).map Prod.fst)) > 0
  · refine ⟨_, rfl, fun _ => ?_, fun h0 => absurd h0 (ne_of_gt hv)⟩
    rw [if_pos hv]
    exact div_mul_cancel₀ _ (ne_of_gt hv)
  · refine ⟨_, rfl, fun hgt => absurd hgt hv, fun _ => ?_⟩
    rw [if_neg hv]

/-- Claim C6 witness: a 50-row joined history in which the asset doubles the
anchor's moves; the stored beta solves the covariance equation. -/
theorem c6_witness :
    ∃ β, calcBeta 252 (List.replicate 50 ((1:ℚ), (1:ℚ))) = some β ∧
      (varPop (pathReturns
          (((List.replicate 50 ((1:ℚ), (1:ℚ))).drop
            ((List.replicate 50 ((1:ℚ), (1:ℚ))).length - 252)).map Prod.fst)) = 0 →
        β = 1) := by
  rcases c6_beta_formula 252 (List.replicate 50 ((1:ℚ), (1:ℚ)))
    (by simp) with ⟨β, h1, _, h3⟩
  exact ⟨β, h1, h3⟩

/-- Claim C10: if the anchor ticker is absent from the predictions dict, or no
betas were computed at construction, `enforce_predictions` returns its input
unchanged. -/
theorem c10_enforce_passthrough (enf : Enforcer)
    (preds : List (String × List ℚ)) (strength : ℚ)
    (h : preds.lookup enf.referenceTicker = none ∨ enf.betas = []) :
    enforcePredictions enf preds strength = preds := by
  rcases h with h | h
  · simp [enforcePredictions, h]
  · simp [enforcePredictions, h]

/-- Claim C10 witness: no betas computed, so a batch passes through. -/
theorem c10_witness :
    enforcePredictions ⟨"SPY", []⟩ [("SPY", [100, 110])] (7/10) =
      [("SPY", [100, 110])] :=
  c10_enforce_passthrough ⟨"SPY", []⟩ [("SPY", [100, 110])] (7/10)
    (Or.inr rfl)

/-! ## Loop lemmas and claims for the forecast engine -/

theorem nextFrame_length (features : List String)
    (scaledMeans scale prevFrame : List ℚ) (newPrice : ℚ) :
    (nextFrame features scaledMeans scale prevFrame newPrice).length =
      prevFrame.length := by
  simp [nextFrame]

theorem nextFrame_getD_zero (features : List String)
    (scaledMeans scale prevFrame : List ℚ) (newPrice : ℚ)
    (h : 0 < prevFrame.length) :
    (nextFrame features scaledMeans scale prevFrame newPrice).getD 0 0 =
      newPrice := by
  cases prevFrame with
  | nil => simp at h
  | cons a t => simp [nextFrame, List.range_succ_eq_map]

theorem forecastStep_preds (env : ForecastEnv) (startPrice : ℚ) (i : ℕ)
    (st : LoopState) :
    (forecastStep env startPrice i st).preds = st.preds ++
      [stepPrice env.assetKey startPrice ((lastWinFrame st.window).getD 0 0)
        (env.predict st.window) i] := rfl

theorem forecastStep_lastFrame (env : ForecastEnv) (startPrice : ℚ) (i : ℕ)
    (st : LoopState) :
    lastWinFrame ((forecastStep env startPrice i st).window) =
      nextFrame env.features env.scaledMeans env.scale (lastWinFrame st.window)
        (stepPrice env.assetKey startPrice ((lastWinFrame st.window).getD 0 0)
          (env.predict st.window) i) := by
  simp [forecastStep, lastWinFrame]

theorem runLoop_lastFrame_length (env : ForecastEnv) (startPrice : ℚ)
    (init : LoopState) : ∀ n,
    (lastWinFrame ((runLoop env startPrice init n).window)).length =
      (lastWinFrame init.window).length := by
  intro n
  induction n with
  | zero => rfl
  | succ m ih =>
    show (lastWinFrame ((forecastStep env startPrice m
      (runLoop env startPrice init m)).window)).length = _
    rw [forecastStep_lastFrame, nextFrame_length, ih]

theorem runLoop_preds_succ (env : ForecastEnv) (startPrice : ℚ)
    (init : LoopState) (n : ℕ) :
    (runLoop env startPrice init (n + 1)).preds =
      (runLoop env startPrice init n).preds ++
        [stepPrice env.assetKey startPrice
          ((lastWinFrame ((runLoop env startPrice init n).window)).getD 0 0)
          (env.predict ((runLoop env startPrice init n).window)) n] := rfl

theorem runLoop_preds_length (env : ForecastEnv) (startPrice : ℚ)
    (init : LoopState) : ∀ n,
    (runLoop env startPrice init n).preds.length = init.preds.length + n := by
  intro n
  induction n with
  | zero => rfl
  | succ m ih =>
    rw [runLoop_preds_succ, List.length_append, ih, List.length_singleton]
    omega

theorem runLoop_lastPrice (env : ForecastEnv) (startPrice : ℚ)
    (init : LoopState) (n : ℕ)
    (h : 0 < (lastWinFrame init.window).length) :
    (lastWinFrame ((runLoop env startPrice init (n + 1)).window)).getD 0 0 =
      stepPrice env.assetKey startPrice
        ((lastWinFrame ((runLoop env startPrice init n).window)).getD 0 0)
        (env.predict ((runLoop env startPrice init n).window)) n := by
  have hl : 0 < (lastWinFrame ((runLoop env startPrice init n).window)).length := by
    rw [runLoop_lastFrame_length env startPrice init n]
    exact h
  show (lastWinFrame ((forecastStep env startPrice n
    (runLoop env startPrice init n)).window)).getD 0 0 = _
  rw [forecastStep_lastFrame]
  exact nextFrame_getD_zero _ _ _ _ _ hl

theorem getD_concat_length (l : List ℚ) (x : ℚ) :
    (l ++ [x]).getD l.length 0 = x := by
  induction l with
  | nil => rfl
  | cons a t ih => simp [ih]

theorem getD_concat_lt (l : List ℚ) (x : ℚ) (i : ℕ) (h : i < l.length) :
    (l ++ [x]).getD i 0 = l.getD i 0 := by
  induction l generalizing i with
  | nil => simp at h
  | cons a t ih =>
    cases i with
    | zero => rfl
    | succ j => simpa using ih j (by simpa using h)

/-- The price at the window's last position after `n` iterations: the start
price before the first step, afterwards the price recorded at step `n-1`. -/
theorem runLoop_lastPrice_eq (env : ForecastEnv) (startPrice : ℚ)
    (w0 : List (List ℚ)) (h : 0 < (lastWinFrame w0).length) : ∀ n,
    (lastWinFrame ((runLoop env startPrice ⟨w0, []⟩ n).window)).getD 0 0 =
      if n = 0 then (lastWinFrame w0).getD 0 0
      else (runLoop env startPrice ⟨w0, []⟩ n).preds.getD (n - 1) 0 := by
  intro n
  induction n with
  | zero => rfl
  | succ m _ =>
    have hlen : (runLoop env startPrice ⟨w0, []⟩ m).preds.length = m := by
      simpa using runLoop_preds_length env startPrice ⟨w0, []⟩ m
    have key : ∀ (l : List ℚ) (x : ℚ), l.length = m → (l ++ [x]).getD m 0 = x := by
      intro l x hl
      rw [← hl]
      exact getD_concat_length l x
    rw [if_neg (Nat.succ_ne_zero m), runLoop_lastPrice env startPrice ⟨w0, []⟩ m h,
      runLoop_preds_succ, Nat.succ_sub_one, key _ _ hlen]

/-- Entries already recorded are unchanged by later iterations. -/
theorem runLoop_preds_getD_stable (env : ForecastEnv) (startPrice : ℚ)
    (w0 : List (List ℚ)) : ∀ steps i, i < steps →
    (runLoop env startPrice ⟨w0, []⟩ steps).preds.getD i 0 =
      (runLoop env startPrice ⟨w0, []⟩ (i + 1)).preds.getD i 0 := by
  intro steps
  induction steps with
  | zero => intro i hi; exact absurd hi (Nat.not_lt_zero i)
  | succ m ih =>
    intro i hi
    rcases Nat.lt_or_ge i m with hlt | hge
    · have hlen : (runLoop env startPrice ⟨w0, []⟩ m).preds.length = m := by
        simpa using runLoop_preds_length env startPrice ⟨w0, []⟩ m
      rw [runLoop_preds_succ, getD_concat_lt _ _ i (by rw [hlen]; exact hlt)]
      exact ih i hlt
    · have heq : i = m := by omega
      subst heq
      rfl

/-- The loop's transcription agrees pointwise with the claim's formula. -/
theorem stepPrice_eq_claim (assetKey : String)
    (startPrice prevPrice predScaled : ℚ) (i : ℕ) :
    stepPrice assetKey startPrice prevPrice predScaled i =
      claimStepPrice prevPrice predScaled startPrice i (assetKey == "btc") := by
  simp only [stepPrice, claimStepPrice, decayFor, trustFactor]
  by_cases h : assetKey = "btc"
  · simp [h]
  · simp [h]

/-- Claim C1: every recorded normalized price of the recursive forecast loop
satisfies `prev + clip(raw_pred - prev, -0.008, 0.008) * decay * trust +
(start - prev) * (1 - trust) * 0.01` with `trust = max(0.05, 1 - i/365)`,
`decay = 0.99` (`0.97` for BTC), `prev` the normalized price at the sliding
window's last position — the start price at step 0, afterwards the previous
recorded price — `start` the fixed normalized price at the initial window's
last position, and `raw_pred` the model's output on the step's window.  The
frame-length hypothesis states that the window rows are nonempty (a frame
always carries at least the price column). -/
theorem c1_recorded_price_formula (env : ForecastEnv) (steps i : ℕ)
    (hi : i < steps)
    (hframe : 0 < (lastWinFrame (initWindow env)).length) :
    (runLoop env (startScaled env) ⟨initWindow env, []⟩ steps).preds.getD i 0 =
      claimStepPrice
        (if i = 0 then startScaled env
         else (runLoop env (startScaled env)
            ⟨initWindow env, []⟩ steps).preds.getD (i - 1) 0)
        (env.predict ((runLoop env (startScaled env)
            ⟨initWindow env, []⟩ i).window))
        (startScaled env) i (env.assetKey == "btc") := by
  have hlen : (runLoop env (startScaled env)
      ⟨initWindow env, []⟩ i).preds.length = i := by
    simpa using runLoop_preds_length env (startScaled env) ⟨initWindow env, []⟩ i
  have key : ∀ (l : List ℚ) (x : ℚ), l.length = i → (l ++ [x]).getD i 0 = x := by
    intro l x hl
    rw [← hl]
    exact getD_concat_length l x
  rw [runLoop_preds_getD_stable env (startScaled env) (initWindow env) steps i hi,
    runLoop_preds_succ, key _ _ hlen, stepPrice_eq_claim]
  congr 1
  rw [runLoop_lastPrice_eq env (startScaled env) (initWindow env) hframe i]
  by_cases h0 : i = 0
  · simp [h0, startScaled]
  · simp only [if_neg h0]
    rw [runLoop_preds_getD_stable env (startScaled env) (initWindow env)
      steps (i - 1) (by omega)]
    rw [show i - 1 + 1 = i from by omega]

/-- Concrete evaluation of the engine on `baseEnv`: with the model echoing
the window's last price, one step keeps the normalized price at `1`. -/
theorem baseEnv_forecast_one : recursiveForecast baseEnv 1 = Except.ok [1] := by
  norm_num [recursiveForecast, baseEnv, runLoop, forecastStep, stepPrice,
    nextFrame, initWindow, startScaled, lastWinFrame, npClip, trustFactor,
    decayFor, List.getLast?, max_def, min_def]

/-- Claim C1 witness: the formula at step 0 of a one-step run over a
two-row single-feature window with an identity-style model. -/
theorem c1_witness :
    (runLoop baseEnv (startScaled baseEnv)
        ⟨initWindow baseEnv, []⟩ 1).preds.getD 0 0 =
      claimStepPrice
        (if 0 = 0 then startScaled baseEnv
         else (runLoop baseEnv (startScaled baseEnv)
            ⟨initWindow baseEnv, []⟩ 1).preds.getD (0 - 1) 0)
        (baseEnv.predict ((runLoop baseEnv (startScaled baseEnv)
            ⟨initWindow baseEnv, []⟩ 0).window))
        (startScaled baseEnv) 0 (baseEnv.assetKey == "btc") :=
  c1_recorded_price_formula baseEnv 1 0 (by decide) (by decide)

/-- Claim C3: every price in a successfully returned forecast path is at
least 20% of the real-valued (inverse-transformed) price at the initial
window's last position. -/
theorem c3_floor_invariant (env : ForecastEnv) (steps : ℕ) (l : List ℚ)
    (hok : recursiveForecast env steps = Except.ok l) :
    ∀ p ∈ l, env.invPrice (startScaled env) * (2 / 10) ≤ p := by
  intro p hp
  unfold recursiveForecast at hok
  split at hok
  · simp only [Except.ok.injEq] at hok
    subst hok
    simp at hp
  · split at hok
    · simp at hok
    · simp only [Except.ok.injEq] at hok
      subst hok
      simp at hp
    · split at hok
      · simp at hok
      · simp only [Except.ok.injEq] at hok
        subst hok
        simp only [List.mem_map] at hp
        rcases hp with ⟨q, hq, hqe⟩
        rw [← hqe]
        exact le_max_right _ _

/-- Claim C3 witness: the floor holds at the single returned price of a
concrete one-step run. -/
theorem c3_witness :
    baseEnv.invPrice (startScaled baseEnv) * (2 / 10) ≤ 1 :=
  c3_floor_invariant baseEnv 1 [1] baseEnv_forecast_one 1 (by simp)

/-- Claim C4, counterexample: with the model artifact file missing, the
forecast operation does not return an empty path — `load_model` raises
`FileNotFoundError` before its `try` block and the error propagates out of
`recursive_forecast` (and hence out of `get_multi_range_forecast`). -/
theorem c4_counterexample :
    recursiveForecast noModelEnv 5 =
      Except.error (PredictorError.fileNotFound "Model not found") ∧
    recursiveForecast noModelEnv 5 ≠ Except.ok [] ∧
    getMultiRangeForecast noModelEnv 42 =
      Except.error (PredictorError.fileNotFound "Model not found") := by
  have h : recursiveForecast noModelEnv 5 =
      Except.error (PredictorError.fileNotFound "Model not found") := by
    simp [recursiveForecast, loadModel, noModelEnv, baseEnv]
  refine ⟨h, ?_, ?_⟩
  · rw [h]
    simp
  · have hall : ∀ s, recursiveForecast noModelEnv s =
        Except.error (PredictorError.fileNotFound "Model not found") := by
      intro s
      simp [recursiveForecast, loadModel, noModelEnv, baseEnv]
    simp [getMultiRangeForecast, rangeEntries, forecastRanges, hall]

/-- Claim C4 (amended): when TensorFlow is unavailable, or when loading the
existing model/normalizer artifacts fails (the caught-exception path),
`recursive_forecast` returns an empty path rather than raising, and the
multi-range caller then reports the current price for every timeframe; a
*missing* artifact file instead raises `FileNotFoundError`. -/
theorem c4_degraded_empty_path (env : ForecastEnv) (currentPrice : ℚ)
    (h : env.tfAvailable = false ∨
      (env.isLoaded = false ∧ env.modelFileExists = true ∧
        env.scalerFileExists = true ∧ env.loadRaises = true)) :
    (∀ steps, recursiveForecast env steps = Except.ok []) ∧
    getMultiRangeForecast env currentPrice =
      Except.ok (("Current", currentPrice) ::
        forecastRanges.map (fun ls => (ls.1, currentPrice))) := by
  have hempty : ∀ steps, recursiveForecast env steps = Except.ok [] := by
    intro steps
    by_cases htf : env.tfAvailable = false
    · simp [recursiveForecast, htf]
    · rcases h with h | ⟨h1, h2, h3, h4⟩
      · exact absurd h htf
      · simp [recursiveForecast, loadModel, htf, h1, h2, h3, h4]
  refine ⟨hempty, ?_⟩
  simp [getMultiRangeForecast, rangeEntries, forecastRanges, hempty]

/-- Claim C4 witness: a caught load failure degrades every timeframe to the
current price. -/
theorem c4_witness :
    recursiveForecast loadFailEnv 5 = Except.ok [] ∧
    getMultiRangeForecast loadFailEnv 42 =
      Except.ok (("Current", (42 : ℚ)) ::
        forecastRanges.map (fun ls => (ls.1, (42 : ℚ)))) := by
  have h := c4_degraded_empty_path loadFailEnv 42 (Or.inr ⟨rfl, rfl, rfl, rfl⟩)
  exact ⟨h.1 5, h.2⟩

/-- The embedded `load_model` never produces the spec's `InsufficientHistoryError`. -/
theorem loadModel_not_insufficient (env : ForecastEnv) :
    loadModel env ≠ Except.error PredictorError.insufficientHistory := by
  unfold loadModel
  split_ifs <;> simp

/-- No code path of `recursive_forecast` produces the spec's
`InsufficientHistoryError`. -/
theorem recursiveForecast_not_insufficient (env : ForecastEnv) (s : ℕ) :
    recursiveForecast env s ≠
      Except.error PredictorError.insufficientHistory := by
  unfold recursiveForecast
  split
  · simp
  · split
    · rename_i e heq
      intro hcontra
      simp only [Except.error.injEq] at hcontra
      subst hcontra
      by_cases hl : env.isLoaded = true
      · simp [hl] at heq
      · rw [if_neg hl] at heq
        exact loadModel_not_insufficient env heq
    · simp
    · split
      · simp
      · simp

/-- Claim C5, counterexample: a series whose length *equals* the profile's
`sequence_length` (so "not greater") makes the forecast succeed outright —
it neither fails, nor is any `InsufficientHistoryError` raised (the source
has no such check at all). -/
theorem c5_counterexample :
    baseEnv.scaledData.length = baseEnv.sequenceLength ∧
    recursiveForecast baseEnv 1 = Except.ok [1] ∧
    recursiveForecast baseEnv 1 ≠
      Except.error PredictorError.insufficientHistory := by
  refine ⟨rfl, baseEnv_forecast_one, ?_⟩
  rw [baseEnv_forecast_one]
  simp

/-- Claim C5 (amended): a series strictly shorter than `sequence_length`
makes `recursive_forecast` fail with numpy's reshape `ValueError`; a series
of exactly `sequence_length` rows succeeds; no path raises an
`InsufficientHistoryError` (the class does not exist in the code). -/
theorem c5_short_history_behavior (env : ForecastEnv) (steps : ℕ)
    (htf : env.tfAvailable = true) (hload : env.isLoaded = true)
    (hshort : env.scaledData.length < env.sequenceLength) :
    recursiveForecast env steps =
      Except.error (PredictorError.valueError "cannot reshape array") ∧
    ∀ (env2 : ForecastEnv) (s : ℕ),
      recursiveForecast env2 s ≠
        Except.error PredictorError.insufficientHistory := by
  constructor
  · simp [recursiveForecast, htf, hload, hshort]
  · exact fun env2 s2 => recursiveForecast_not_insufficient env2 s2

/-- Claim C5 witness: one row against a window of two. -/
theorem c5_witness :
    recursiveForecast shortEnv 3 =
      Except.error (PredictorError.valueError "cannot reshape array") ∧
    recursiveForecast shortEnv 3 ≠
      Except.error PredictorError.insufficientHistory := by
  have h := c5_short_history_behavior shortEnv 3 rfl rfl (by decide)
  exact ⟨h.1, h.2 shortEnv 3⟩

/-- Claim C9 witness: the spec's scenario
`analyze(100, [102, 105, 108, 112, 115, 118, 120])` is classified bullish. -/
theorem c9_witness :
    (analyzeForecastPath 100 [102, 105, 108, 112, 115, 118, 120]).trend =
      "bullish" :=
  (c9_analyzer_classification 100 [102, 105, 108, 112, 115, 118, 120]
    (by decide)).1.mpr (by norm_num [List.getLast?])

end MarketIntel
